import Mathlib

/-!
# Verification of the auth-api server (`src/server.js`)

A shallow embedding of the salt-retrieval / registration / login / profile
endpoints of the Express server, together with proofs of the specification
claims about them.

Conventions of the embedding:

* Machine 32-bit words are `Nat` reduced modulo `2^32` where the source
  relies on 32-bit wraparound (inside SHA-256).
* The MySQL `users` table is a list of records; `SELECT ... WHERE username = ?`
  is a `List.find?`, row order being irrelevant because every theorem either
  fixes a concrete store or hypothesises the lookup result.
* Request bodies: a JS field that is checked only for truthiness
  (`!username`) is a `String` with `""` standing for both the empty string
  and an absent field (they behave identically in every reached branch);
  `email`, whose absence and emptiness genuinely differ, is `Option String`.
* `jsonwebtoken` is an external dependency; it is modelled by the claims it
  signs (`Claims`) plus a decoding environment `String → Option (Claims × String)`
  mapping a token text to the claims and secret under which it verifies
  (`none` = malformed / forged).  `jwt.verify` rejects a token exactly when
  it is malformed, signed under another secret, or `now ≥ exp`
  (`expiresIn: "24h"` sets `exp = iat + 86400`).
-/

set_option maxRecDepth 16384

namespace AuthApi

/-! ## SHA-256 (as computed by node `crypto.createHash("sha256")`) -/

/-- `2^32`, the modulus for 32-bit words. -/
def M32 : Nat := 4294967296

/-- 32-bit addition. -/
def add32 (a b : Nat) : Nat := (a + b) % M32

/-- 32-bit right rotation (arguments already `< 2^32`). -/
def rotr32 (n x : Nat) : Nat := (x >>> n) ||| ((x <<< (32 - n)) % M32)

/-- UTF-8 encoding of one character (node hashes the UTF-8 bytes of the string). -/
def utf8Bytes (c : Char) : List Nat :=
  let n := c.toNat
  if n < 128 then [n]
  else if n < 2048 then [192 ||| (n >>> 6), 128 ||| (n &&& 63)]
  else if n < 65536 then
    [224 ||| (n >>> 12), 128 ||| ((n >>> 6) &&& 63), 128 ||| (n &&& 63)]
  else
    [240 ||| (n >>> 18), 128 ||| ((n >>> 12) &&& 63),
     128 ||| ((n >>> 6) &&& 63), 128 ||| (n &&& 63)]

/-- The UTF-8 bytes of a string. -/
def strBytes (s : String) : List Nat :=
  s.data.foldr (fun c acc => utf8Bytes c ++ acc) []

/-- `k` bytes of `n`, big-endian. -/
def beBytes : Nat → Nat → List Nat
  | 0, _ => []
  | k + 1, n => beBytes k (n >>> 8) ++ [n % 256]

/-- SHA-256 padding: `0x80`, zeros, then the 64-bit big-endian bit length,
to a multiple of 64 bytes. -/
def padBytes (msg : List Nat) : List Nat :=
  let len := msg.length
  msg ++ [128] ++ List.replicate ((64 - ((len + 9) % 64)) % 64) 0
      ++ beBytes 8 (len * 8)

/-- Big-endian 32-bit words from bytes. -/
def toWords : List Nat → List Nat
  | b0 :: b1 :: b2 :: b3 :: rest =>
      ((b0 <<< 24) ||| (b1 <<< 16) ||| (b2 <<< 8) ||| b3) :: toWords rest
  | _ => []

/-- The 64 SHA-256 round constants. -/
def shaK : List Nat :=
  [1116352408, 1899447441, 3049323471, 3921009573,
   961987163, 1508970993, 2453635748, 2870763221,
   3624381080, 310598401, 607225278, 1426881987,
   1925078388, 2162078206, 2614888103, 3248222580,
   3835390401, 4022224774, 264347078, 604807628,
   770255983, 1249150122, 1555081692, 1996064986,
   2554220882, 2821834349, 2952996808, 3210313671,
   3336571891, 3584528711, 113926993, 338241895,
   666307205, 773529912, 1294757372, 1396182291,
   1695183700, 1986661051, 2177026350, 2456956037,
   2730485921, 2820302411, 3259730800, 3345764771,
   3516065817, 3600352804, 4094571909, 275423344,
   430227734, 506948616, 659060556, 883997877,
   958139571, 1322822218, 1537002063, 1747873779,
   1955562222, 2024104815, 2227730452, 2361852424,
   2428436474, 2756734187, 3204031479, 3329325298]

/-- The SHA-256 initial hash value. -/
def shaH0 : List Nat :=
  [1779033703, 3144134277, 1013904242, 2773480762,
   1359893119, 2600822924, 528734635, 1541459225]

/-- Message-schedule small sigma 0. -/
def schedSigA (x : Nat) : Nat := (rotr32 7 x) ^^^ (rotr32 18 x) ^^^ (x >>> 3)

/-- Message-schedule small sigma 1. -/
def schedSigB (x : Nat) : Nat := (rotr32 17 x) ^^^ (rotr32 19 x) ^^^ (x >>> 10)

/-- Compression big sigma 0. -/
def roundSigA (x : Nat) : Nat := (rotr32 2 x) ^^^ (rotr32 13 x) ^^^ (rotr32 22 x)

/-- Compression big sigma 1. -/
def roundSigB (x : Nat) : Nat := (rotr32 6 x) ^^^ (rotr32 11 x) ^^^ (rotr32 25 x)

/-- Extend the 16 block words by `k` further schedule words. -/
def extendW : List Nat → Nat → List Nat
  | w, 0 => w
  | w, k + 1 =>
      let i := w.length
      extendW
        (w ++ [add32 (add32 (schedSigB (w.getD (i - 2) 0)) (w.getD (i - 7) 0))
                     (add32 (schedSigA (w.getD (i - 15) 0)) (w.getD (i - 16) 0))]) k

/-- One SHA-256 round on the state `[a,b,c,d,e,f,g,h]`. -/
def shaRound (st : List Nat) (k wt : Nat) : List Nat :=
  match st with
  | [a, b, c, d, e, f, g, h] =>
      let ch := (e &&& f) ^^^ ((e ^^^ 4294967295) &&& g)
      let maj := (a &&& b) ^^^ (a &&& c) ^^^ (b &&& c)
      let t1 := add32 (add32 (add32 h (roundSigB e)) (add32 ch k)) wt
      let t2 := add32 (roundSigA a) maj
      [add32 t1 t2, a, b, c, add32 d t1, e, f, g]
  | _ => st

/-- Compress one 16-word block into the running hash. -/
def shaCompress (hs : List Nat) (block : List Nat) : List Nat :=
  let w := extendW block 48
  let st := List.foldl (fun st kw => shaRound st kw.1 kw.2) hs (shaK.zip w)
  List.zipWith add32 hs st

/-- Fold all 16-word blocks of the padded message. -/
def shaBlocks (hs : List Nat) : List Nat → List Nat
  | w0 :: w1 :: w2 :: w3 :: w4 :: w5 :: w6 :: w7 ::
    w8 :: w9 :: w10 :: w11 :: w12 :: w13 :: w14 :: w15 :: rest =>
      shaBlocks
        (shaCompress hs
          [w0, w1, w2, w3, w4, w5, w6, w7, w8, w9, w10, w11, w12, w13, w14, w15])
        rest
  | _ => hs

/-- Lower-case hex digit. -/
def hexChar (n : Nat) : Char :=
  if n < 10 then Char.ofNat (48 + n) else Char.ofNat (87 + n)

/-- Eight hex digits of a 32-bit word. -/
def word8hex (w : Nat) : List Char :=
  [hexChar ((w >>> 28) % 16), hexChar ((w >>> 24) % 16),
   hexChar ((w >>> 20) % 16), hexChar ((w >>> 16) % 16),
   hexChar ((w >>> 12) % 16), hexChar ((w >>> 8) % 16),
   hexChar ((w >>> 4) % 16), hexChar (w % 16)]

/-- `crypto.createHash("sha256").update(s).digest("hex")`. -/
def sha256Hex (s : String) : String :=
  let hs := shaBlocks shaH0 (toWords (padBytes (strBytes s)))
  String.mk (hs.foldr (fun w acc => word8hex w ++ acc) [])

/-! ## Data model -/

/-- One row of the `users` table
(`id, username, email, passwordHash, salt, last_login, is_active`). -/
structure UserRec where
  id : Nat
  username : String
  email : Option String
  passwordHash : String
  salt : String
  lastLogin : Option Nat
  isActive : Bool
deriving DecidableEq, Repr

/-- The `users` table. -/
abbrev Store := List UserRec

/-- `SELECT ... FROM users WHERE username = ?`: the matching row, if any
(usernames are unique, so at most one row matches). -/
def findByUsername (st : Store) (u : String) : Option UserRec :=
  st.find? (fun r => r.username = u)

/-- JWT claims (`jwt.sign({userId, username}, ..., {expiresIn: "24h"})`
adds `iat = now` and `exp = now + 86400`). -/
structure Claims where
  userId : Nat
  username : String
  iat : Nat
  exp : Nat
deriving DecidableEq, Repr

/-- `id` and `username` as returned in the login response's `user` object. -/
structure UserOut where
  id : Nat
  username : String
deriving DecidableEq, Repr

/-- A JSON response together with its HTTP status.  Every endpoint of the
server emits an object with `success` and optionally `message`; the other
fields are `none` unless the handler sets them.  The `token` field carries
the claims signed into the issued JWT text; `user` is login's
`{id, username}` object; `profileUser` is profile's echo of the decoded
claims. -/
structure Response where
  status : Nat := 200
  success : Bool
  message : Option String := none
  token : Option Claims := none
  user : Option UserOut := none
  profileUser : Option Claims := none
  salt : Option String := none
  isNewUser : Option Bool := none
  userId : Option Nat := none
deriving DecidableEq, Repr

/-! ## Salt derivation and the `/api/get-salt` endpoint -/

/-- The salt derived from a username:
`sha256(username + "server-pepper-secret").digest("hex").substring(0, 16)`
(computed identically in `/api/get-salt` and `/api/register`). -/
def deriveSalt (u : String) : String :=
  (sha256Hex (u ++ "server-pepper-secret")).take 16

/-- `POST /api/get-salt`.  Read-only: returns the stored salt when the
username exists, otherwise derives one. -/
def getSaltHandler (username : String) (st : Store) : Response :=
  if username = "" then
    { status := 400, success := false, message := some "Username required" }
  else
    match findByUsername st username with
    | none =>
        { success := true, salt := some (deriveSalt username),
          isNewUser := some true }
    | some r =>
        { success := true, salt := some r.salt, isNewUser := some false }

/-! ## The `/api/register` endpoint -/

/-- Body of a register request.  `email` is genuinely optional
(`email || null` and an `undefined` bind — which the driver formats as SQL
`NULL` — differ from an empty string), hence `Option`. -/
structure RegisterReq where
  username : String
  email : Option String
  clientHash : String
deriving DecidableEq, Repr

/-- Row predicate of the duplicate check
`SELECT id FROM users WHERE username = ? OR email = ?`.  With no email in
the request the bind is `NULL` and `email = NULL` matches no row. -/
def dupMatch (req : RegisterReq) (r : UserRec) : Bool :=
  r.username = req.username ||
    (match req.email with
     | some e => r.email = some e
     | none => false)

/-- `POST /api/register`.  The insert statement
`INSERT INTO users (username, 'abc@xyz.com', passwordHash, salt, is_active) VALUES (?, ?, ?, ?, TRUE)`
has the string literal `'abc@xyz.com'` where the `email` column name
belongs; MySQL rejects it with a parse error, the thrown error reaches the
handler's catch-all, and the response is the generic 500.  No row is ever
inserted. -/
def registerHandler (req : RegisterReq) (st : Store) : Response × Store :=
  if req.username = "" || req.clientHash = "" then
    ({ status := 400, success := false,
       message := some "Username and password hash are required" }, st)
  else if st.any (dupMatch req) then
    ({ status := 409, success := false,
       message := some "Username or email already exists" }, st)
  else
    ({ status := 500, success := false, message := some "Server error" }, st)

/-! ## JWT signing and verification (model of `jsonwebtoken` as used here) -/

/-- The signing secret (`process.env.JWT_SECRET` unset in the embedding, so
the default applies). -/
def JWT_SECRET : String := "your-secret-key-change-this"

/-- A decoding environment: what `jwt.verify`'s signature check recovers
from a token text — the claims and the secret the text was signed under,
or `none` for a malformed or forged text. -/
def JwtEnv : Type := String → Option (Claims × String)

/-- `jwt.verify(token, secret, cb)` at clock time `now`: succeeds with the
claims exactly when the text decodes under `secret` and `now < exp`
(`jsonwebtoken` reports `TokenExpiredError` once `now ≥ exp`); malformed
text, wrong secret and expiry are all reported as the same failure. -/
def jwtVerify (env : JwtEnv) (tok : String) (secret : String) (now : Nat) :
    Option Claims :=
  match env tok with
  | none => none
  | some (c, s) => if s = secret ∧ now < c.exp then some c else none

/-! ## The `/api/login` endpoint -/

/-- Body of a login request (all three fields truthiness-checked). -/
structure LoginReq where
  username : String
  clientHash : String
  nonce : String
deriving DecidableEq, Repr

/-- `UPDATE users SET last_login = CURRENT_TIMESTAMP WHERE id = ?`. -/
def updateLastLogin (st : Store) (uid : Nat) (now : Nat) : Store :=
  st.map (fun r => if r.id = uid then { r with lastLogin := some now } else r)

/-- `POST /api/login` at clock time `now`.  `updateOk` is whether the
`last_login` UPDATE round-trip succeeds; it is awaited with no local
handling, so on failure the thrown error reaches the catch-all and the
response is the generic 500 — the token is never signed. -/
def loginHandler (req : LoginReq) (st : Store) (now : Nat) (updateOk : Bool) :
    Response × Store :=
  if req.username = "" || req.clientHash = "" || req.nonce = "" then
    ({ status := 400, success := false,
       message := some "Invalid login request" }, st)
  else
    match findByUsername st req.username with
    | none =>
        ({ status := 401, success := false,
           message := some "Invalid credentials" }, st)
    | some user =>
        let expectedHash := sha256Hex (user.passwordHash ++ req.nonce)
        if req.clientHash ≠ expectedHash then
          ({ status := 401, success := false,
             message := some "Invalid credentials" }, st)
        else if updateOk then
          ({ status := 200, success := true,
             message := some "Login successful",
             token := some ⟨user.id, user.username, now, now + 86400⟩,
             user := some ⟨user.id, user.username⟩ },
           updateLastLogin st user.id now)
        else
          ({ status := 500, success := false,
             message := some "Server error" }, st)

/-! ## The `/api/profile` endpoint and its authentication gate -/

/-- JS `String.prototype.split(" ")`: chunks between single-space
separators, keeping empty chunks (so `"".split(" ") = [""]`). -/
def splitSpaceAux : List Char → List Char → List String
  | [], acc => [String.mk acc.reverse]
  | c :: rest, acc =>
      if c = ' ' then String.mk acc.reverse :: splitSpaceAux rest []
      else splitSpaceAux rest (c :: acc)

/-- `header.split(" ")`. -/
def jsSplitSpace (s : String) : List String := splitSpaceAux s.data []

/-- `authHeader && authHeader.split(" ")[1]`, then the `!token` falsiness
check: the bearer token text, when one is extractable. -/
def extractToken (authHeader : Option String) : Option String :=
  match authHeader with
  | none => none
  | some h =>
      if h = "" then none
      else
        match (jsSplitSpace h).get? 1 with
        | none => none
        | some t => if t = "" then none else some t

/-- `GET /api/profile` behind `authenticateToken`, at clock time `now`:
401 with no extractable token, 403 when verification fails, otherwise the
decoded claims are attached as `req.user` and echoed back. -/
def profileHandler (env : JwtEnv) (authHeader : Option String) (now : Nat) :
    Response :=
  match extractToken authHeader with
  | none =>
      { status := 401, success := false, message := some "Access token required" }
  | some tok =>
      match jwtVerify env tok JWT_SECRET now with
      | none =>
          { status := 403, success := false, message := some "Invalid token" }
      | some c => { status := 200, success := true, profileUser := some c }

/-! ## Invariants and response-content accounting -/

/-- Every stored row's `salt` column holds the value derived from its
username — the register handler computes the salt that way, so this is the
intended store invariant. -/
def SaltInv (st : Store) : Prop := ∀ r ∈ st, r.salt = deriveSalt r.username

/-- Every message string any handler ever puts in a response. -/
def fixedMessages : List String :=
  ["Username required", "Username and password hash are required",
   "Username or email already exists", "Invalid login request",
   "Invalid credentials", "Login successful", "Server error",
   "Access token required", "Invalid token"]

/-- The strings occurring in a response: the message, the salt field, and
the username carried by the `user`, token-claims and profile-claims
fields. -/
def respStrings (r : Response) : List String :=
  (match r.message with | some m => [m] | none => []) ++
  (match r.salt with | some s => [s] | none => []) ++
  (match r.user with | some u => [u.username] | none => []) ++
  (match r.token with | some c => [c.username] | none => []) ++
  (match r.profileUser with | some c => [c.username] | none => [])

/-- The usernames present in the store. -/
def usernames (st : Store) : List String := st.map (fun r => r.username)

/-! ## Concrete fixtures for witnesses -/

/-- The salt the server derives for `"alice"`. -/
def aliceSalt : String := deriveSalt "alice"

/-- The registration-time hash `h1 = sha256(password ++ salt)` for
password `"pw"`. -/
def aliceH1 : String := sha256Hex ("pw" ++ aliceSalt)

/-- The row registration would create for `"alice"`. -/
def aliceRec : UserRec := ⟨1, "alice", none, aliceH1, aliceSalt, none, true⟩

/-- A store holding only `aliceRec`. -/
def aliceStore : Store := [aliceRec]

/-- The login-time hash `h2 = sha256(h1 ++ nonce)` for nonce `"nonce-1"`. -/
def aliceH2 : String := sha256Hex (aliceH1 ++ "nonce-1")

/-- A row for `"bob"` with an opaque stored hash. -/
def bobRec : UserRec := ⟨1, "bob", none, "ph-bob", "salt-bob", none, true⟩

/-- A store holding only `bobRec`. -/
def bobStore : Store := [bobRec]

/-- The correct login hash for `bobRec` under nonce `"n1"`. -/
def bobH2 : String := sha256Hex ("ph-bob" ++ "n1")

/-- A decoding environment with a single well-formed token text `"t0"`,
signed under the server's secret for bob's login claims at time 0. -/
def jwtEnv0 : JwtEnv := fun tok =>
  if tok = "t0" then some (⟨1, "bob", 0, 86400⟩, JWT_SECRET) else none

end AuthApi

namespace AuthApi

/-! ## Helper lemmas -/

theorem find?_username {st : Store} {u : String} {r : UserRec}
    (h : findByUsername st u = some r) : r ∈ st ∧ r.username = u := by
  refine ⟨List.mem_of_find?_eq_some h, ?_⟩
  have := List.find?_some h
  exact of_decide_eq_true this

theorem loginHandler_eq_of_blank (req : LoginReq) (st : Store) (now : Nat)
    (ok : Bool) (h : req.username = "" ∨ req.clientHash = "" ∨ req.nonce = "") :
    loginHandler req st now ok =
      ({ status := 400, success := false,
         message := some "Invalid login request" }, st) := by
  unfold loginHandler
  rw [if_pos]
  rcases h with h | h | h <;> simp [h]

theorem loginHandler_eq_of_fields (req : LoginReq) (st : Store) (now : Nat)
    (ok : Bool) (hu : req.username ≠ "") (hc : req.clientHash ≠ "")
    (hn : req.nonce ≠ "") :
    loginHandler req st now ok =
      match findByUsername st req.username with
      | none =>
          ({ status := 401, success := false,
             message := some "Invalid credentials" }, st)
      | some user =>
          if req.clientHash = sha256Hex (user.passwordHash ++ req.nonce) then
            if ok then
              ({ status := 200, success := true,
                 message := some "Login successful",
                 token := some ⟨user.id, user.username, now, now + 86400⟩,
                 user := some ⟨user.id, user.username⟩ },
               updateLastLogin st user.id now)
            else
              ({ status := 500, success := false,
                 message := some "Server error" }, st)
          else
            ({ status := 401, success := false,
               message := some "Invalid credentials" }, st) := by
  unfold loginHandler
  rw [if_neg (by simp [hu, hc, hn])]
  cases findByUsername st req.username with
  | none => rfl
  | some user =>
      dsimp only
      by_cases hch : req.clientHash = sha256Hex (user.passwordHash ++ req.nonce)
      · rw [if_neg (not_not_intro hch), if_pos hch]
      · rw [if_pos hch, if_neg hch]

/-! ## Claim theorems -/

/-- **C10**: for every non-empty username, the get-salt response's
`isNewUser` flag is `true` exactly when no record with that username is in
the store, so get-salt discloses to any caller whether a username is
registered. -/
theorem getSalt_discloses_registration (u : String) (st : Store)
    (hu : u ≠ "") :
    (getSaltHandler u st).isNewUser = some ((findByUsername st u).isNone) ∧
    ((getSaltHandler u st).isNewUser = some true ↔
      findByUsername st u = none) := by
  unfold getSaltHandler
  rw [if_neg hu]
  cases h : findByUsername st u <;> simp

theorem getSalt_discloses_registration_witness :
    ((getSaltHandler "alice" []).isNewUser =
        some ((findByUsername [] "alice").isNone) ∧
      ((getSaltHandler "alice" []).isNewUser = some true ↔
        findByUsername [] "alice" = none)) ∧
    ((getSaltHandler "bob" bobStore).isNewUser =
        some ((findByUsername bobStore "bob").isNone) ∧
      ((getSaltHandler "bob" bobStore).isNewUser = some true ↔
        findByUsername bobStore "bob" = none)) :=
  ⟨getSalt_discloses_registration "alice" [] (by decide),
   getSalt_discloses_registration "bob" bobStore (by decide)⟩

/-- **C2** (code bug): registration can never return 201 or add a record.
The insert statement
`INSERT INTO users (username, 'abc@xyz.com', passwordHash, salt, is_active) ...`
puts a string literal where the `email` column name belongs, so MySQL
rejects every insert and the handler's catch-all answers 500: the store is
returned unchanged by every register call, no call returns 201, and the
concrete first-time registration of `"alice"` yields the generic
server-error response instead of the claimed 201-with-userId. -/
theorem register_insert_always_fails :
    (∀ (req : RegisterReq) (st : Store),
       (registerHandler req st).2 = st ∧
       (registerHandler req st).1.status ≠ 201) ∧
    registerHandler ⟨"alice", none, "hash-1"⟩ [] =
      ({ status := 500, success := false, message := some "Server error" },
       []) := by
  refine ⟨?_, by decide⟩
  intro req st
  unfold registerHandler
  split
  · exact ⟨rfl, by simp⟩
  · split
    · exact ⟨rfl, by simp⟩
    · exact ⟨rfl, by simp⟩

/-- **C9**: whenever login answers 400 or 401, the store is returned
completely unchanged — no record (including its last-login timestamp) is
modified by the failed call. -/
theorem login_failure_preserves_store (req : LoginReq) (st : Store)
    (now : Nat) (ok : Bool)
    (h : (loginHandler req st now ok).1.status = 400 ∨
         (loginHandler req st now ok).1.status = 401) :
    (loginHandler req st now ok).2 = st := by
  by_cases hb : req.username = "" ∨ req.clientHash = "" ∨ req.nonce = ""
  · rw [loginHandler_eq_of_blank req st now ok hb]
  · push_neg at hb
    obtain ⟨hu, hc, hn⟩ := hb
    rw [loginHandler_eq_of_fields req st now ok hu hc hn] at h ⊢
    cases hfind : findByUsername st req.username with
    | none => rfl
    | some user =>
        rw [hfind] at h
        dsimp only at h ⊢
        by_cases hch :
            req.clientHash = sha256Hex (user.passwordHash ++ req.nonce)
        · rw [if_pos hch] at h ⊢
          cases ok with
          | true => simp at h
          | false => rfl
        · rw [if_neg hch]

theorem saltInv_updateLastLogin (st : Store) (uid now : Nat)
    (h : SaltInv st) : SaltInv (updateLastLogin st uid now) := by
  intro r hr
  unfold updateLastLogin at hr
  rw [List.mem_map] at hr
  obtain ⟨r0, hr0, heq⟩ := hr
  subst heq
  by_cases hid : r0.id = uid
  · rw [if_pos hid]
    exact h r0 hr0
  · rw [if_neg hid]
    exact h r0 hr0

/-- **C4**: the salt handed out by get-salt is the pure function
`deriveSalt` of the username alone — the same value before and after
registration and regardless of interleaved operations — and the invariant
that every stored record's salt equals that derived value is preserved by
every store-touching endpoint. -/
theorem salt_invariant (st : Store) (hinv : SaltInv st) :
    (∀ u : String, u ≠ "" →
       (getSaltHandler u st).salt = some (deriveSalt u)) ∧
    (∀ (req : LoginReq) (now : Nat) (ok : Bool),
       SaltInv (loginHandler req st now ok).2) ∧
    (∀ req : RegisterReq, SaltInv (registerHandler req st).2) := by
  refine ⟨?_, ?_, ?_⟩
  · intro u hu
    unfold getSaltHandler
    rw [if_neg hu]
    cases hfind : findByUsername st u with
    | none => rfl
    | some r =>
        obtain ⟨hmem, huser⟩ := find?_username hfind
        dsimp only
        rw [hinv r hmem, huser]
  · intro req now ok
    by_cases hb : req.username = "" ∨ req.clientHash = "" ∨ req.nonce = ""
    · rw [loginHandler_eq_of_blank req st now ok hb]
      exact hinv
    · push_neg at hb
      obtain ⟨hu, hc, hn⟩ := hb
      rw [loginHandler_eq_of_fields req st now ok hu hc hn]
      cases hfind : findByUsername st req.username with
      | none => exact hinv
      | some user =>
          dsimp only
          by_cases hch :
              req.clientHash = sha256Hex (user.passwordHash ++ req.nonce)
          · rw [if_pos hch]
            cases ok with
            | true =>
                rw [if_pos rfl]
                exact saltInv_updateLastLogin st user.id now hinv
            | false =>
                exact hinv
          · rw [if_neg hch]
            exact hinv
  · intro req
    unfold registerHandler
    split
    · exact hinv
    · split
      · exact hinv
      · exact hinv

theorem salt_invariant_witness :
    SaltInv aliceStore ∧
    ((getSaltHandler "alice" aliceStore).salt = some (deriveSalt "alice") ∧
     SaltInv (loginHandler ⟨"alice", aliceH2, "nonce-1"⟩ aliceStore 5 true).2 ∧
     SaltInv (registerHandler ⟨"carol", none, "h"⟩ aliceStore).2) := by
  have hinv : SaltInv aliceStore := by
    intro r hr
    simp only [aliceStore, List.mem_singleton] at hr
    subst hr
    rfl
  exact ⟨hinv,
    (salt_invariant aliceStore hinv).1 "alice" (by decide),
    (salt_invariant aliceStore hinv).2.1 ⟨"alice", aliceH2, "nonce-1"⟩ 5 true,
    (salt_invariant aliceStore hinv).2.2 ⟨"carol", none, "h"⟩⟩

/-- **C3**: a login naming an absent username and a login naming an
existing username with a non-matching clientHash produce observably
identical responses — both exactly the 401
`{success: false, message: "Invalid credentials"}` body. -/
theorem login_failures_indistinguishable
    (st1 st2 : Store) (r1 r2 : LoginReq) (now1 now2 : Nat) (ok1 ok2 : Bool)
    (h1u : r1.username ≠ "") (h1c : r1.clientHash ≠ "") (h1n : r1.nonce ≠ "")
    (h2u : r2.username ≠ "") (h2c : r2.clientHash ≠ "") (h2n : r2.nonce ≠ "")
    (habsent : findByUsername st1 r1.username = none)
    (rec : UserRec) (hfound : findByUsername st2 r2.username = some rec)
    (hbad : r2.clientHash ≠ sha256Hex (rec.passwordHash ++ r2.nonce)) :
    (loginHandler r1 st1 now1 ok1).1 = (loginHandler r2 st2 now2 ok2).1 ∧
    (loginHandler r1 st1 now1 ok1).1 =
      { status := 401, success := false,
        message := some "Invalid credentials" } := by
  have e1 : (loginHandler r1 st1 now1 ok1).1 =
      { status := 401, success := false,
        message := some "Invalid credentials" } := by
    rw [loginHandler_eq_of_fields r1 st1 now1 ok1 h1u h1c h1n, habsent]
  have e2 : (loginHandler r2 st2 now2 ok2).1 =
      { status := 401, success := false,
        message := some "Invalid credentials" } := by
    rw [loginHandler_eq_of_fields r2 st2 now2 ok2 h2u h2c h2n, hfound]
    dsimp only
    rw [if_neg hbad]
  exact ⟨e1.trans e2.symm, e1⟩

theorem login_failures_indistinguishable_witness :
    (findByUsername [] "alice" = none ∧
     findByUsername bobStore "bob" = some bobRec ∧
     "wrong" ≠ sha256Hex (bobRec.passwordHash ++ "n1")) ∧
    ((loginHandler ⟨"alice", "x", "n"⟩ [] 0 true).1 =
       (loginHandler ⟨"bob", "wrong", "n1"⟩ bobStore 9 false).1 ∧
     (loginHandler ⟨"alice", "x", "n"⟩ [] 0 true).1 =
       { status := 401, success := false,
         message := some "Invalid credentials" }) :=
  ⟨⟨rfl, rfl, by decide⟩,
   login_failures_indistinguishable [] bobStore ⟨"alice", "x", "n"⟩
     ⟨"bob", "wrong", "n1"⟩ 0 9 true false (by decide) (by decide) (by decide)
     (by decide) (by decide) (by decide) rfl bobRec rfl (by decide)⟩

/-- **C1**: against any store holding a record for the requested username
with stored hash `p`, a login with non-empty fields succeeds — returning
exactly the 200 body with the signed token claims and the
`{id, username}` user object — precisely when the submitted `clientHash`
is the hex SHA-256 digest of `p ++ nonce`; in particular, with alice's
registered record storing `h1 = sha256("pw" ++ deriveSalt "alice")`, login
with `h2 = sha256(h1 ++ "nonce-1")` and nonce `"nonce-1"` succeeds, and
login with the same `h2` but nonce `"wrong-nonce"` fails with 401. -/
theorem login_success_iff
    (st : Store) (u ch n : String) (now : Nat) (rec : UserRec)
    (hu : u ≠ "") (hc : ch ≠ "") (hn : n ≠ "")
    (hfind : findByUsername st u = some rec) :
    ((loginHandler ⟨u, ch, n⟩ st now true).1 =
        { status := 200, success := true, message := some "Login successful",
          token := some ⟨rec.id, rec.username, now, now + 86400⟩,
          user := some ⟨rec.id, rec.username⟩ } ↔
      ch = sha256Hex (rec.passwordHash ++ n)) ∧
    ((loginHandler ⟨"alice", aliceH2, "nonce-1"⟩ aliceStore 0 true).1 =
        { status := 200, success := true, message := some "Login successful",
          token := some ⟨1, "alice", 0, 86400⟩,
          user := some ⟨1, "alice"⟩ } ∧
     (loginHandler ⟨"alice", aliceH2, "wrong-nonce"⟩ aliceStore 0 true).1 =
        { status := 401, success := false,
          message := some "Invalid credentials" }) := by
  constructor
  · rw [loginHandler_eq_of_fields ⟨u, ch, n⟩ st now true hu hc hn, hfind]
    dsimp only
    by_cases hch : ch = sha256Hex (rec.passwordHash ++ n)
    · rw [if_pos hch, if_pos rfl]
      exact iff_of_true rfl hch
    · rw [if_neg hch]
      refine iff_of_false ?_ hch
      intro hcon
      have := congrArg Response.status hcon
      simp at this
  · constructor
    · rw [loginHandler_eq_of_fields ⟨"alice", aliceH2, "nonce-1"⟩ aliceStore 0
          true (by decide) (by decide) (by decide)]
      rfl
    · rw [loginHandler_eq_of_fields ⟨"alice", aliceH2, "wrong-nonce"⟩
          aliceStore 0 true (by decide) (by decide) (by decide)]
      have hfa : findByUsername aliceStore "alice" = some aliceRec := rfl
      rw [hfa]
      dsimp only
      rw [if_neg (by decide)]

theorem login_success_iff_witness :
    ("alice" ≠ "" ∧ aliceH2 ≠ "" ∧ "nonce-1" ≠ "" ∧
     findByUsername aliceStore "alice" = some aliceRec) ∧
    ((loginHandler ⟨"alice", aliceH2, "nonce-1"⟩ aliceStore 0 true).1 =
        { status := 200, success := true, message := some "Login successful",
          token := some ⟨aliceRec.id, aliceRec.username, 0, 0 + 86400⟩,
          user := some ⟨aliceRec.id, aliceRec.username⟩ } ↔
      aliceH2 = sha256Hex (aliceRec.passwordHash ++ "nonce-1")) :=
  ⟨⟨by decide, by decide, by decide, rfl⟩,
   (login_success_iff aliceStore "alice" aliceH2 "nonce-1" 0 aliceRec
      (by decide) (by decide) (by decide) rfl).1⟩

/-- **C5**: a token issued at time `T` carries `exp = T + 86400`; profile
answers 200 with the embedded claims for every request at time strictly
below `T + 24h`, and fails verification with the 403 invalid-token
response for every request at time at or past `T + 24h`. -/
theorem token_expiry_window
    (env : JwtEnv) (tok : String) (uid : Nat) (un : String) (T t : Nat)
    (h : Option String) (hdr : extractToken h = some tok)
    (henv : env tok = some (⟨uid, un, T, T + 86400⟩, JWT_SECRET)) :
    (t < T + 86400 →
       profileHandler env h t =
         { status := 200, success := true,
           profileUser := some ⟨uid, un, T, T + 86400⟩ }) ∧
    (T + 86400 ≤ t →
       profileHandler env h t =
         { status := 403, success := false,
           message := some "Invalid token" }) := by
  unfold profileHandler
  rw [hdr]
  dsimp only
  unfold jwtVerify
  rw [henv]
  dsimp only
  constructor
  · intro ht
    rw [if_pos ⟨rfl, ht⟩]
  · intro ht
    rw [if_neg (fun hcon => absurd hcon.2 (by omega))]

theorem token_expiry_window_witness :
    profileHandler jwtEnv0 (some "Bearer t0") 86399 =
      { status := 200, success := true,
        profileUser := some ⟨1, "bob", 0, 0 + 86400⟩ } ∧
    profileHandler jwtEnv0 (some "Bearer t0") 86400 =
      { status := 403, success := false,
        message := some "Invalid token" } :=
  ⟨(token_expiry_window jwtEnv0 "t0" 1 "bob" 0 86399 (some "Bearer t0") rfl
      rfl).1 (by decide),
   (token_expiry_window jwtEnv0 "t0" 1 "bob" 0 86400 (some "Bearer t0") rfl
      rfl).2 (by decide)⟩

/-- **C6** (claim as stated is false): on a successful credential match
with a failing last-login UPDATE, the code does NOT best-effort past the
failure — the awaited query's rejection reaches the catch-all, so the
concrete matching login returns the 500 server-error body with no token,
not the claimed 200-with-token. -/
theorem login_update_failure_cex :
    (loginHandler ⟨"bob", bobH2, "n1"⟩ bobStore 0 false).1.status = 500 ∧
    (loginHandler ⟨"bob", bobH2, "n1"⟩ bobStore 0 false).1.token = none ∧
    (loginHandler ⟨"bob", bobH2, "n1"⟩ bobStore 0 false).1.success = false := by
  have he : loginHandler ⟨"bob", bobH2, "n1"⟩ bobStore 0 false =
      ({ status := 500, success := false, message := some "Server error" },
       bobStore) := by
    rw [loginHandler_eq_of_fields ⟨"bob", bobH2, "n1"⟩ bobStore 0 false
        (by decide) (by decide) (by decide)]
    have hfb : findByUsername bobStore "bob" = some bobRec := rfl
    rw [hfb]
    dsimp only
    rw [if_pos (show bobH2 = sha256Hex (bobRec.passwordHash ++ "n1") from rfl)]
    rfl
  exact ⟨by rw [he], by rw [he], by rw [he]⟩

/-- **C6** (amended): the last-login update on a successful credential
match is not best-effort — if the UPDATE fails the whole login fails with
the generic 500 server-error response (no token, store unchanged); only
when the update succeeds does login answer 200 with a token. -/
theorem login_update_failure_fails_login
    (req : LoginReq) (st : Store) (now : Nat) (rec : UserRec)
    (hu : req.username ≠ "") (hc : req.clientHash ≠ "") (hn : req.nonce ≠ "")
    (hfind : findByUsername st req.username = some rec)
    (hmatch : req.clientHash = sha256Hex (rec.passwordHash ++ req.nonce)) :
    loginHandler req st now false =
      ({ status := 500, success := false, message := some "Server error" },
       st) ∧
    (loginHandler req st now true).1.status = 200 := by
  constructor
  · rw [loginHandler_eq_of_fields req st now false hu hc hn, hfind]
    dsimp only
    rw [if_pos hmatch]
    rfl
  · rw [loginHandler_eq_of_fields req st now true hu hc hn, hfind]
    dsimp only
    rw [if_pos hmatch, if_pos rfl]

theorem login_update_failure_fails_login_witness :
    loginHandler ⟨"bob", bobH2, "n1"⟩ bobStore 3 false =
      ({ status := 500, success := false, message := some "Server error" },
       bobStore) ∧
    (loginHandler ⟨"bob", bobH2, "n1"⟩ bobStore 3 true).1.status = 200 :=
  login_update_failure_fails_login ⟨"bob", bobH2, "n1"⟩ bobStore 3 bobRec
    (by decide) (by decide) (by decide) rfl rfl

/-- **C7**: profile answers 401 when no bearer token is extractable from
the authorization header, 403 when token verification fails, and with a
valid token answers 200 echoing the claims — whose `userId` and `username`
equal those of the store record matched by the login that issued the
token. -/
theorem profile_auth_gate (env : JwtEnv) (h : Option String) (now : Nat) :
    (extractToken h = none →
       profileHandler env h now =
         { status := 401, success := false,
           message := some "Access token required" }) ∧
    (∀ tok, extractToken h = some tok →
       jwtVerify env tok JWT_SECRET now = none →
       profileHandler env h now =
         { status := 403, success := false,
           message := some "Invalid token" }) ∧
    (∀ (req : LoginReq) (st : Store) (nowL : Nat) (ok : Bool) (c : Claims)
       (tok : String) (t : Nat),
       (loginHandler req st nowL ok).1.token = some c →
       env tok = some (c, JWT_SECRET) → extractToken h = some tok →
       t < c.exp →
       (profileHandler env h t =
          { status := 200, success := true, profileUser := some c } ∧
        ∃ rec, findByUsername st req.username = some rec ∧
          c.userId = rec.id ∧ c.username = rec.username)) := by
  refine ⟨?_, ?_, ?_⟩
  · intro hx
    unfold profileHandler
    rw [hx]
  · intro tok hx hv
    unfold profileHandler
    rw [hx]
    dsimp only
    rw [hv]
  · intro req st nowL ok c tok t htok henv hx ht
    constructor
    · unfold profileHandler
      rw [hx]
      dsimp only
      unfold jwtVerify
      rw [henv]
      dsimp only
      rw [if_pos ⟨rfl, ht⟩]
    · by_cases hb : req.username = "" ∨ req.clientHash = "" ∨ req.nonce = ""
      · rw [loginHandler_eq_of_blank req st nowL ok hb] at htok
        simp at htok
      · push_neg at hb
        obtain ⟨hu, hc, hn⟩ := hb
        rw [loginHandler_eq_of_fields req st nowL ok hu hc hn] at htok
        cases hfind : findByUsername st req.username with
        | none =>
            rw [hfind] at htok
            simp at htok
        | some user =>
            rw [hfind] at htok
            dsimp only at htok
            by_cases hch :
                req.clientHash = sha256Hex (user.passwordHash ++ req.nonce)
            · rw [if_pos hch] at htok
              cases ok with
              | true =>
                  rw [if_pos rfl] at htok
                  dsimp only at htok
                  rw [Option.some_inj] at htok
                  subst htok
                  exact ⟨user, rfl, rfl, rfl⟩
              | false =>
                  simp at htok
            · rw [if_neg hch] at htok
              simp at htok

theorem profile_auth_gate_witness :
    profileHandler jwtEnv0 none 0 =
      { status := 401, success := false,
        message := some "Access token required" } ∧
    profileHandler jwtEnv0 (some "Bearer junk") 0 =
      { status := 403, success := false, message := some "Invalid token" } ∧
    (profileHandler jwtEnv0 (some "Bearer t0") 5 =
       { status := 200, success := true,
         profileUser := some ⟨1, "bob", 0, 86400⟩ } ∧
     ∃ rec, findByUsername bobStore "bob" = some rec ∧
       (⟨1, "bob", 0, 86400⟩ : Claims).userId = rec.id ∧
       (⟨1, "bob", 0, 86400⟩ : Claims).username = rec.username) :=
  ⟨(profile_auth_gate jwtEnv0 none 0).1 rfl,
   (profile_auth_gate jwtEnv0 (some "Bearer junk") 0).2.1 "junk" rfl rfl,
   (profile_auth_gate jwtEnv0 (some "Bearer t0") 5).2.2 ⟨"bob", bobH2, "n1"⟩
     bobStore 0 true ⟨1, "bob", 0, 86400⟩ "t0" 5
     (by
       rw [loginHandler_eq_of_fields ⟨"bob", bobH2, "n1"⟩ bobStore 0 true
           (by decide) (by decide) (by decide)]
       have hfb : findByUsername bobStore "bob" = some bobRec := rfl
       rw [hfb]
       dsimp only
       rw [if_pos (show bobH2 = sha256Hex (bobRec.passwordHash ++ "n1") from
             rfl), if_pos rfl]
       rfl)
     rfl rfl (by decide)⟩

theorem respStrings_login (req : LoginReq) (st : Store) (now : Nat)
    (ok : Bool) :
    ∀ s ∈ respStrings (loginHandler req st now ok).1,
      s ∈ fixedMessages ∨ s ∈ usernames st := by
  intro s hs
  by_cases hb : req.username = "" ∨ req.clientHash = "" ∨ req.nonce = ""
  · rw [loginHandler_eq_of_blank req st now ok hb] at hs
    simp [respStrings] at hs
    subst hs
    left
    simp [fixedMessages]
  · push_neg at hb
    obtain ⟨hu, hc, hn⟩ := hb
    rw [loginHandler_eq_of_fields req st now ok hu hc hn] at hs
    cases hfind : findByUsername st req.username with
    | none =>
        rw [hfind] at hs
        simp [respStrings] at hs
        subst hs
        left
        simp [fixedMessages]
    | some user =>
        rw [hfind] at hs
        dsimp only at hs
        by_cases hch :
            req.clientHash = sha256Hex (user.passwordHash ++ req.nonce)
        · rw [if_pos hch] at hs
          cases ok with
          | true =>
              rw [if_pos rfl] at hs
              simp [respStrings] at hs
              rcases hs with hs | hs
              · subst hs; left; simp [fixedMessages]
              · subst hs
                right
                exact List.mem_map.mpr
                  ⟨user, (find?_username hfind).1, rfl⟩
          | false =>
              simp [respStrings] at hs
              subst hs
              left
              simp [fixedMessages]
        · rw [if_neg hch] at hs
          simp [respStrings] at hs
          subst hs
          left
          simp [fixedMessages]

theorem respStrings_register (req : RegisterReq) (st : Store) :
    ∀ s ∈ respStrings (registerHandler req st).1, s ∈ fixedMessages := by
  intro s hs
  unfold registerHandler at hs
  split at hs
  · simp [respStrings] at hs
    subst hs
    simp [fixedMessages]
  · split at hs
    · simp [respStrings] at hs
      subst hs
      simp [fixedMessages]
    · simp [respStrings] at hs
      subst hs
      simp [fixedMessages]

theorem respStrings_profile (env : JwtEnv) (h : Option String) (now : Nat)
    (st : Store)
    (henv : ∀ tok c s, env tok = some (c, s) → c.username ∈ usernames st) :
    ∀ x ∈ respStrings (profileHandler env h now),
      x ∈ fixedMessages ∨ x ∈ usernames st := by
  intro x hx
  unfold profileHandler at hx
  cases hex : extractToken h with
  | none =>
      rw [hex] at hx
      simp [respStrings] at hx
      subst hx
      left
      simp [fixedMessages]
  | some tok =>
      rw [hex] at hx
      dsimp only at hx
      cases hv : jwtVerify env tok JWT_SECRET now with
      | none =>
          rw [hv] at hx
          simp [respStrings] at hx
          subst hx
          left
          simp [fixedMessages]
      | some c =>
          rw [hv] at hx
          dsimp only at hx
          simp [respStrings] at hx
          subst hx
          right
          unfold jwtVerify at hv
          cases he : env tok with
          | none => rw [he] at hv; cases hv
          | some p =>
              rw [he] at hv
              dsimp only at hv
              split at hv
              · rw [Option.some_inj] at hv
                subst hv
                exact henv tok p.1 p.2 (by rw [he])
              · cases hv

theorem loginHandler_salt_none (req : LoginReq) (st : Store) (now : Nat)
    (ok : Bool) : (loginHandler req st now ok).1.salt = none := by
  by_cases hb : req.username = "" ∨ req.clientHash = "" ∨ req.nonce = ""
  · rw [loginHandler_eq_of_blank req st now ok hb]
  · push_neg at hb
    obtain ⟨hu, hc, hn⟩ := hb
    rw [loginHandler_eq_of_fields req st now ok hu hc hn]
    cases hfind : findByUsername st req.username with
    | none => rfl
    | some user =>
        dsimp only
        by_cases hch :
            req.clientHash = sha256Hex (user.passwordHash ++ req.nonce)
        · rw [if_pos hch]
          cases ok with
          | true => rw [if_pos rfl]
          | false => rfl
        · rw [if_neg hch]

theorem registerHandler_salt_none (req : RegisterReq) (st : Store) :
    (registerHandler req st).1.salt = none := by
  unfold registerHandler
  split
  · rfl
  · split
    · rfl
    · rfl

theorem profileHandler_salt_none (env : JwtEnv) (h : Option String)
    (now : Nat) : (profileHandler env h now).salt = none := by
  unfold profileHandler
  cases hex : extractToken h with
  | none => rfl
  | some tok =>
      dsimp only
      cases hv : jwtVerify env tok JWT_SECRET now with
      | none => rfl
      | some c => rfl

/-- **C8**: no login, register or profile response carries the
`passwordHash` or `salt` of any stored user — every string those
responses contain is either one of the fixed handler messages or a stored
username, and their `salt` field is always absent (salt is emitted only by
get-salt).  The hypotheses say the stored secrets do not coincide with a
fixed message or a username, and that every verifiable token was issued
for a stored username. -/
theorem no_secret_in_responses
    (st : Store) (lreq : LoginReq) (rreq : RegisterReq) (env : JwtEnv)
    (h : Option String) (now nowL : Nat) (ok : Bool)
    (henv : ∀ tok c s, env tok = some (c, s) → c.username ∈ usernames st)
    (rec : UserRec) (_hrec : rec ∈ st)
    (hph1 : rec.passwordHash ∉ fixedMessages)
    (hph2 : rec.passwordHash ∉ usernames st)
    (hs1 : rec.salt ∉ fixedMessages)
    (hs2 : rec.salt ∉ usernames st) :
    ((loginHandler lreq st nowL ok).1.salt = none ∧
     (registerHandler rreq st).1.salt = none ∧
     (profileHandler env h now).salt = none) ∧
    (rec.passwordHash ∉ respStrings (loginHandler lreq st nowL ok).1 ∧
     rec.salt ∉ respStrings (loginHandler lreq st nowL ok).1) ∧
    (rec.passwordHash ∉ respStrings (registerHandler rreq st).1 ∧
     rec.salt ∉ respStrings (registerHandler rreq st).1) ∧
    (rec.passwordHash ∉ respStrings (profileHandler env h now) ∧
     rec.salt ∉ respStrings (profileHandler env h now)) := by
  refine ⟨⟨loginHandler_salt_none lreq st nowL ok,
           registerHandler_salt_none rreq st,
           profileHandler_salt_none env h now⟩, ⟨?_, ?_⟩, ⟨?_, ?_⟩, ⟨?_, ?_⟩⟩
  · intro hmem
    rcases respStrings_login lreq st nowL ok _ hmem with hf | hn
    · exact hph1 hf
    · exact hph2 hn
  · intro hmem
    rcases respStrings_login lreq st nowL ok _ hmem with hf | hn
    · exact hs1 hf
    · exact hs2 hn
  · intro hmem
    exact hph1 (respStrings_register rreq st _ hmem)
  · intro hmem
    exact hs1 (respStrings_register rreq st _ hmem)
  · intro hmem
    rcases respStrings_profile env h now st henv _ hmem with hf | hn
    · exact hph1 hf
    · exact hph2 hn
  · intro hmem
    rcases respStrings_profile env h now st henv _ hmem with hf | hn
    · exact hs1 hf
    · exact hs2 hn

theorem no_secret_in_responses_witness :
    ((loginHandler ⟨"bob", bobH2, "n1"⟩ bobStore 2 true).1.salt = none ∧
     (registerHandler ⟨"bob", none, "zz"⟩ bobStore).1.salt = none ∧
     (profileHandler jwtEnv0 (some "Bearer t0") 3).salt = none) ∧
    (bobRec.passwordHash ∉
       respStrings (loginHandler ⟨"bob", bobH2, "n1"⟩ bobStore 2 true).1 ∧
     bobRec.salt ∉
       respStrings (loginHandler ⟨"bob", bobH2, "n1"⟩ bobStore 2 true).1) ∧
    (bobRec.passwordHash ∉
       respStrings (registerHandler ⟨"bob", none, "zz"⟩ bobStore).1 ∧
     bobRec.salt ∉
       respStrings (registerHandler ⟨"bob", none, "zz"⟩ bobStore).1) ∧
    (bobRec.passwordHash ∉
       respStrings (profileHandler jwtEnv0 (some "Bearer t0") 3) ∧
     bobRec.salt ∉
       respStrings (profileHandler jwtEnv0 (some "Bearer t0") 3)) :=
  no_secret_in_responses bobStore ⟨"bob", bobH2, "n1"⟩ ⟨"bob", none, "zz"⟩
    jwtEnv0 (some "Bearer t0") 3 2 true
    (by
      intro tok c s hts
      by_cases ht : tok = "t0"
      · rw [ht] at hts
        simp [jwtEnv0] at hts
        rw [← hts.1]
        decide
      · simp [jwtEnv0, ht] at hts)
    bobRec (by decide) (by decide) (by decide) (by decide) (by decide)

theorem login_failure_preserves_store_witness :
    ((loginHandler ⟨"bob", "wrong", "n1"⟩ bobStore 7 true).1.status = 400 ∨
     (loginHandler ⟨"bob", "wrong", "n1"⟩ bobStore 7 true).1.status = 401) ∧
    (loginHandler ⟨"bob", "wrong", "n1"⟩ bobStore 7 true).2 = bobStore :=
  ⟨Or.inr (by decide),
   login_failure_preserves_store ⟨"bob", "wrong", "n1"⟩ bobStore 7 true
     (Or.inr (by decide))⟩

end AuthApi
